import Mathlib

/-!
Shallow embedding of the KI Self Sustain dashboard (React frontend plus shell
scripts).  Each definition below is translated from a function of the
repository's source: `SystemMonitor` (`fetchSystemData`, service badges,
polling), `FlowiseManager` (optimize handlers, polling), `ChatInterface`
(`handleSendMessage`), and the `start.sh` shell script.  JavaScript strings are
Lean `String`s, JS numbers that only ever hold integers are `Nat`, objects with
optional fields become structures of `Option` fields, promise outcomes and
thrown errors are modelled with `Except`, and the browser's network is an
explicit environment value passed to each handler.
-/

namespace KISelfSustain

/-- JS `String.prototype.toLowerCase`, character by character. -/
def jsToLower (s : String) : String := String.mk (s.toList.map Char.toLower)

/-- Helper for JS `String.prototype.includes`: `jsIncludesL hay sub` is `true`
iff `sub` occurs contiguously inside `hay`. -/
def jsIncludesL : List Char → List Char → Bool
  | [], sub => sub.isEmpty
  | c :: t, sub => sub.isPrefixOf (c :: t) || jsIncludesL t sub

/-- JS `s.includes(pat)`. -/
def jsIncludes (s pat : String) : Bool := jsIncludesL s.toList pat.toList

/-- JS `a || d` for an optional string `a`: `undefined` and the empty string
are falsy, any other string is returned unchanged. -/
def jsOrD : Option String → String → String
  | some s, d => if s = "" then d else s
  | none, d => d

/-- JS numeric truthiness for an optional number: `undefined` and `0` are
falsy. -/
def jsTruthyNat : Option Nat → Bool
  | some n => n != 0
  | none => false

/-- JS `String.prototype.trim`: strip leading and trailing whitespace. -/
def jsTrim (s : String) : String :=
  String.mk (((s.toList.dropWhile Char.isWhitespace).reverse.dropWhile Char.isWhitespace).reverse)

/-- JS `Array.prototype.join(', ')`. -/
def joinComma : List String → String
  | [] => ""
  | [s] => s
  | s :: rest => s ++ ", " ++ joinComma rest

/-! ## SystemMonitor: `fetchSystemData`, service state and badges -/

/-- Outcome of one entry of the `Promise.allSettled` triple in
`fetchSystemData`: either the fetch settled fulfilled (with `ok` recording
whether the HTTP status was 2xx) or it rejected. -/
inductive Settled where
  | fulfilled (ok : Bool)
  | rejected
deriving DecidableEq, Repr

/-- The source's per-service branch condition
`res.status === 'fulfilled' && res.value.ok`. -/
def settledOk : Settled → Bool
  | .fulfilled ok => ok
  | .rejected => false

/-- The `systemData.services` object of `SystemMonitor`.  All fields start
absent (`{}` in the source). -/
structure SMServices where
  backend : Option String
  learning : Option String
  flowise : Option String
  flowise_endpoint : Option String
deriving DecidableEq, Repr

def initialSMServices : SMServices := ⟨none, none, none, none⟩

/-- One synthetic performance sample pushed by `fetchSystemData`.  The
`Math.random()*100` floats are abstracted as opaque `Nat` readings; none of
the window-management logic depends on their values. -/
structure PerfSample where
  time : String
  cpu : Nat
  memory : Nat
  learning_rate : Nat
  timestamp : Nat
deriving DecidableEq, Repr

/-- The parts of `SystemMonitor`'s `systemData` state that the claims are
about (the `metrics` and `learning` JSON blobs are polled data with no logic
attached and are elided). -/
structure SMState where
  status : String
  services : SMServices
  performance : List PerfSample
deriving DecidableEq, Repr

def initialSMState : SMState := ⟨"loading", initialSMServices, []⟩

/-- The three per-service branches of `fetchSystemData`'s success path
(source lines 60-85): each service is set to `'online'` when its own settled
result is fulfilled with an ok response and `'offline'` otherwise;
`flowise_endpoint` is overwritten only in the flowise-ok branch. -/
def fetchServices (prev : SMServices) (statusRes learningRes flowiseRes : Settled)
    (flowiseEndpoint : Option String) : SMServices :=
  { backend := some (if settledOk statusRes then "online" else "offline"),
    learning := some (if settledOk learningRes then "online" else "offline"),
    flowise := some (if settledOk flowiseRes then "online" else "offline"),
    flowise_endpoint :=
      if settledOk flowiseRes then flowiseEndpoint else prev.flowise_endpoint }

/-- JS `Array.prototype.slice(-n)`: the last `n` elements (the whole list when
it is shorter than `n`). -/
def jsSliceLast (n : Nat) (l : List α) : List α := l.drop (l.length - n)

/-- The performance-window update
`[...(systemData.performance || []), newPerformancePoint].slice(-20)`. -/
def updatePerformance (prev : List PerfSample) (p : PerfSample) : List PerfSample :=
  jsSliceLast 20 (prev ++ [p])

/-- One completed run of `fetchSystemData`'s success path (no throw reached
the outer catch).  `statusJson` is the `status` field of the backend's JSON
body, `flowiseEndpoint` the `flowise_endpoint` field of the flowise JSON body,
and `p` the freshly generated performance sample. -/
def fetchSystemDataSuccess (st : SMState) (statusRes learningRes flowiseRes : Settled)
    (statusJson : Option String) (flowiseEndpoint : Option String) (p : PerfSample) : SMState :=
  { status := if settledOk statusRes then jsOrD statusJson "active" else st.status,
    services := fetchServices st.services statusRes learningRes flowiseRes flowiseEndpoint,
    performance := updatePerformance st.performance p }

/-- The outer catch of `fetchSystemData`: status `'error'` and a fresh
services object with all three services `'offline'` (dropping
`flowise_endpoint`). -/
def fetchSystemDataCatch (st : SMState) : SMState :=
  { st with
    status := "error",
    services := ⟨some "offline", some "offline", some "offline", none⟩ }

/-- The states `SystemMonitor`'s `systemData` can reach: the initial state,
followed by any interleaving of completed success-path runs and catch-path
runs of `fetchSystemData`. -/
inductive SMReachable : SMState → Prop where
  | init : SMReachable initialSMState
  | success : ∀ {st} (s l f : Settled) (sj ep : Option String) (p : PerfSample),
      SMReachable st → SMReachable (fetchSystemDataSuccess st s l f sj ep p)
  | failure : ∀ {st}, SMReachable st → SMReachable (fetchSystemDataCatch st)

/-- One rendered per-service status badge of the Service-Status card. -/
structure ServiceBadge where
  name : String
  status : String
deriving DecidableEq, Repr

/-- The four `ServiceStatus` rows rendered by `SystemMonitor` (source lines
257-280): three polled services defaulted with `|| 'offline'`, plus the
hard-coded `'checking'` row for the LLM service. -/
def serviceBadges (svcs : SMServices) : List ServiceBadge :=
  [⟨"Backend API", jsOrD svcs.backend "offline"⟩,
   ⟨"Lern-Engine", jsOrD svcs.learning "offline"⟩,
   ⟨"Flowise", jsOrD svcs.flowise "offline"⟩,
   ⟨"LLM Service", "checking"⟩]

/-! ## ChatInterface: `handleSendMessage` -/

/-- One entry of the `messages` state of `ChatInterface`.  JS timestamps
(`Date` objects / `Date.now()` milliseconds) are `Nat`s; the fractional id
`Date.now() + 0.5` of the setup message is represented by doubling every id
(`2*now`, `2*now + 1`, `2*now + 2` stand for `now`, `now + 0.5`,
`now + 1`). -/
structure ChatMessage where
  id : Nat
  type : String
  content : String
  timestamp : Nat
  status : String
deriving DecidableEq, Repr

/-- The initial `messages` state of `ChatInterface`. -/
def initialChatMessages : List ChatMessage :=
  [⟨1, "system",
    "KI Self Sustain System initialisiert. Ich bin bereit für Ihre Anweisungen zur Selbstverbesserung und Systemkontrolle.",
    0, "success"⟩]

/-- The `ChatInterface` state touched by `handleSendMessage`. -/
structure ChatState where
  messages : List ChatMessage
  inputValue : String
  isLoading : Bool
deriving DecidableEq, Repr

/-- The only state update ever applied to `messages`:
`setMessages(prev => [...prev, m])`. -/
def appendMessage (prev : List ChatMessage) (m : ChatMessage) : List ChatMessage :=
  prev ++ [m]

/-- The `requestData` object built by `handleSendMessage` for the chosen
endpoint (field values other than the user text and the ISO timestamp are the
fixed literals of the source). -/
inductive ReqBody where
  | userInteraction (message : String) (timestamp : Nat)
  | improvementTrigger (context : String) (timestamp : Nat)
  | emptyObj
deriving DecidableEq, Repr

/-- One `fetch` call issued by `handleSendMessage`. -/
structure Request where
  url : String
  method : String
  body : Option ReqBody
deriving DecidableEq, Repr

/-- The endpoint/requestData dispatch of `handleSendMessage` (source lines
70-92): case-insensitive substring commands with `improve`/`optimize` checked
first, then `status`/`health`, then `flowise`/`workflow`, else the
llm-feedback default. -/
def chooseEndpoint (inputValue : String) (ts : Nat) : String × ReqBody :=
  if jsIncludes (jsToLower inputValue) "improve" || jsIncludes (jsToLower inputValue) "optimize" then
    ("/api/learning/autonomous-improvement", .improvementTrigger inputValue ts)
  else if jsIncludes (jsToLower inputValue) "status" || jsIncludes (jsToLower inputValue) "health" then
    ("/api/ai/status", .emptyObj)
  else if jsIncludes (jsToLower inputValue) "flowise" || jsIncludes (jsToLower inputValue) "workflow" then
    ("/api/flowise/chatflows", .emptyObj)
  else
    ("/api/learning/llm-feedback", .userInteraction inputValue ts)

/-- The HTTP method chosen at the main fetch:
`endpoint.includes('status') || endpoint.includes('chatflows') ? 'GET' : 'POST'`. -/
def methodFor (endpoint : String) : String :=
  if jsIncludes endpoint "status" || jsIncludes endpoint "chatflows" then "GET" else "POST"

/-- The request body chosen at the main fetch: `undefined` for the GET
endpoints, `JSON.stringify(requestData)` otherwise. -/
def bodyFor (endpoint : String) (d : ReqBody) : Option ReqBody :=
  if jsIncludes endpoint "status" || jsIncludes endpoint "chatflows" then none else some d

/-- The fields of the check-and-setup JSON body read by `handleSendMessage`
(`setupData.status` and `setupData.setup_result?.status`). -/
structure SetupData where
  status : Option String
  setup_result_status : Option String
deriving DecidableEq, Repr

/-- The fields of the main response's JSON body read when formatting the bot
reply.  `improvement_plan_keys` is `Object.keys(data.improvement_plan).length`
when `data.improvement_plan` is present, `analysis_analysis` is
`data.analysis?.analysis`, `length` is `data.length`. -/
structure RespData where
  status : Option String
  version : Option String
  components : Option (List String)
  timestamp : Option String
  length : Option Nat
  improvement_plan_keys : Option Nat
  message : Option String
  error : Option String
  analysis_analysis : Option String
deriving DecidableEq, Repr

/-- The main fetch's response: HTTP ok flag and parsed JSON body. -/
structure MainResp where
  ok : Bool
  data : RespData
deriving DecidableEq, Repr

/-- The `botResponse.content` formatting of `handleSendMessage` (source lines
111-140), branch for branch. -/
def botContent (endpoint : String) (resp : MainResp) : String :=
  if resp.ok then
    if jsIncludes endpoint "status" then
      "Systemstatus: " ++ jsOrD resp.data.status "Aktiv" ++
      "\nVersion: " ++ jsOrD resp.data.version "Unbekannt" ++
      "\nKomponenten: " ++ (match resp.data.components with
        | some cs => joinComma cs
        | none => "Alle aktiv") ++
      "\nLetzte Aktivität: " ++ jsOrD resp.data.timestamp "Gerade eben"
    else if jsIncludes endpoint "chatflows" then
      "Flowise Status: " ++
      (if jsTruthyNat resp.data.length then
        toString (resp.data.length.getD 0) ++ " Chatflows gefunden"
       else "Keine Chatflows verfügbar") ++ "\n" ++
      (if jsTruthyNat resp.data.length then
        "Chatflows können über das Flowise-Panel verwaltet werden."
       else "Erstellen Sie neue Chatflows über das Flowise-Interface.")
    else if jsIncludes endpoint "autonomous-improvement" then
      "Selbstverbesserung " ++
      (if resp.data.status = some "success" then "erfolgreich" else "fehlgeschlagen") ++ ":\n" ++
      (if resp.data.status = some "success" then
        "Version: " ++ jsOrD resp.data.version "Aktualisiert" ++
        "\nVerbesserungen: " ++
        toString (match resp.data.improvement_plan_keys with
          | some k => k
          | none => 0) ++ " Schritte"
       else
        "Grund: " ++ jsOrD resp.data.message (jsOrD resp.data.error "Unbekannter Fehler"))
    else
      "Feedback verarbeitet: " ++
      (if resp.data.status = some "success" then "Erfolgreich" else "Fehler") ++ "\n" ++
      jsOrD resp.data.message (jsOrD resp.data.analysis_analysis "Verarbeitung abgeschlossen")
  else
    if (match resp.data.message with
        | some m => jsIncludes m "No valid chat completion endpoints found"
        | none => false) then
      "KI-System nicht verfügbar. Automatische Einrichtung wird versucht...\nFehler: " ++
      (match resp.data.message with
        | some m => m
        | none => "") ++
      "\nBitte warten Sie einen Moment und versuchen Sie es erneut."
    else
      "Fehler: " ++ jsOrD resp.data.error (jsOrD resp.data.message "Unbekannter Fehler")

/-- The environment of one `handleSendMessage` run: `Date.now()` at entry and
the outcome of the two awaited fetch-plus-json sequences.  `Except.error e`
stands for any throw inside that sequence (network failure or json failure),
carrying the thrown error's `.message`. -/
structure ChatEnv where
  now : Nat
  setup : Except String SetupData
  main : Except String MainResp
deriving Repr

/-- The user message appended first (`type: 'user', status: 'sent'`). -/
def userMessageOf (now : Nat) (input : String) : ChatMessage :=
  ⟨2 * now, "user", input, now, "sent"⟩

/-- The `setup_attempted` system notice (`type: 'system'`). -/
def setupAttemptedMessage (now : Nat) (sd : SetupData) : ChatMessage :=
  { id := 2 * now + 1,
    type := "system",
    content := "AI-System wird automatisch eingerichtet... Status: " ++
      jsOrD sd.setup_result_status "In Bearbeitung",
    timestamp := now,
    status := if sd.setup_result_status = some "success" then "success" else "warning" }

/-- The catch-branch error bubble of `handleSendMessage` (source lines
143-151): a bot message of status `'error'` wrapping the raw error message. -/
def connectionErrorMessage (now : Nat) (e : String) : ChatMessage :=
  { id := 2 * now + 2,
    type := "bot",
    content := "Verbindungsfehler: " ++ e ++ ". Überprüfen Sie, ob das Backend läuft.",
    timestamp := now,
    status := "error" }

def setupRequest : Request :=
  ⟨"http://localhost:5000/api/ai/check-and-setup", "POST", none⟩

/-- `handleSendMessage` (source lines 32-155) as a state transformer, also
returning the list of network requests it issued. -/
def handleSendMessage (env : ChatEnv) (st : ChatState) : ChatState × List Request :=
  if jsTrim st.inputValue == "" || st.isLoading then (st, [])
  else
    let input := st.inputValue
    let st1 : ChatState := ⟨appendMessage st.messages (userMessageOf env.now input), "", true⟩
    match env.setup with
    | .error e =>
        (⟨appendMessage st1.messages (connectionErrorMessage env.now e), st1.inputValue, false⟩,
         [setupRequest])
    | .ok setupData =>
        let st2 : ChatState :=
          if setupData.status = some "setup_attempted" then
            ⟨appendMessage st1.messages (setupAttemptedMessage env.now setupData),
             st1.inputValue, st1.isLoading⟩
          else st1
        let ed := chooseEndpoint input env.now
        let mainReq : Request := ⟨"http://localhost:5000" ++ ed.1, methodFor ed.1, bodyFor ed.1 ed.2⟩
        match env.main with
        | .error e =>
            (⟨appendMessage st2.messages (connectionErrorMessage env.now e), st2.inputValue, false⟩,
             [setupRequest, mainReq])
        | .ok resp =>
            let botResponse : ChatMessage :=
              ⟨2 * env.now + 2, "bot", botContent ed.1 resp, env.now,
               if resp.ok then "success" else "error"⟩
            (⟨appendMessage st2.messages botResponse, st2.inputValue, false⟩,
             [setupRequest, mainReq])

/-- The error message carried by the first throw of the fetch sequence of a
`handleSendMessage` run, when one occurs. -/
def thrownMsg (env : ChatEnv) : Option String :=
  match env.setup with
  | .error e => some e
  | .ok _ =>
    match env.main with
    | .error e => some e
    | .ok _ => none

/-- Recognizes a bot-typed error-status chat message. -/
def isBotError (m : ChatMessage) : Bool := m.type == "bot" && m.status == "error"

/-! ## FlowiseManager: the optimize handlers and their user-visible effects -/

/-- The observable side effects an optimize handler can perform besides its
own fetch: a `console.error` log, a blocking `alert(...)` dialog, or the
immediate `fetchFlowiseData()` refresh. -/
inductive FMEffect where
  | consoleError (msg : String)
  | alertDialog (msg : String)
  | refetchFlowiseData
deriving DecidableEq, Repr

/-- The response of the per-chatflow optimize POST: HTTP ok flag and the
pretty-printed `JSON.stringify(result.optimization, null, 2)` text. -/
structure OptimizeResp where
  ok : Bool
  optimizationStr : String
deriving DecidableEq, Repr

/-- `FlowiseManager.handleOptimizeChatflow` (source lines 496-511), as the
list of effects it performs for a given fetch outcome. -/
def handleOptimizeChatflow (res : Except String OptimizeResp) : List FMEffect :=
  match res with
  | .error e => [.consoleError ("Failed to optimize chatflow: " ++ e)]
  | .ok r =>
    if r.ok then
      [.alertDialog ("Optimierung abgeschlossen: " ++ r.optimizationStr), .refetchFlowiseData]
    else []

/-- The response of the auto-optimize POST: HTTP ok flag and
`result.results.length`. -/
structure AutoOptimizeResp where
  ok : Bool
  resultsLength : Nat
deriving DecidableEq, Repr

/-- `FlowiseManager.handleAutoOptimize` (source lines 513-527), as the list
of effects it performs for a given fetch outcome. -/
def handleAutoOptimize (res : Except String AutoOptimizeResp) : List FMEffect :=
  match res with
  | .error e => [.consoleError ("Failed to auto-optimize: " ++ e)]
  | .ok r =>
    if r.ok then
      [.alertDialog ("Auto-Optimierung abgeschlossen: " ++ toString r.resultsLength ++
        " Chatflows verarbeitet"), .refetchFlowiseData]
    else []

/-- Recognizes a blocking alert dialog among the effects. -/
def isAlert : FMEffect → Bool
  | .alertDialog _ => true
  | _ => false

/-! ## Polling timers of SystemMonitor and FlowiseManager -/

/-- The browser's interval-timer table: the active `(id, period-ms)` pairs and
the next fresh timer id. -/
structure TimerState where
  active : List (Nat × Nat)
  nextId : Nat
deriving DecidableEq, Repr

/-- `setInterval(cb, periodMs)`: registers a fresh timer, returning its id. -/
def setIntervalT (ts : TimerState) (periodMs : Nat) : Nat × TimerState :=
  (ts.nextId, ⟨ts.active ++ [(ts.nextId, periodMs)], ts.nextId + 1⟩)

/-- `clearInterval(id)`. -/
def clearIntervalT (ts : TimerState) (id : Nat) : TimerState :=
  ⟨ts.active.filter (fun e => e.1 != id), ts.nextId⟩

/-- `SystemMonitor`'s mount effect (source line 113):
`setInterval(fetchSystemData, 5000)`. -/
def systemMonitorMount (ts : TimerState) : Nat × TimerState := setIntervalT ts 5000

/-- `SystemMonitor`'s unmount cleanup: `clearInterval(interval)` on the id it
created. -/
def systemMonitorCleanup (id : Nat) (ts : TimerState) : TimerState := clearIntervalT ts id

/-- `FlowiseManager`'s mount effect (source line 420):
`setInterval(fetchFlowiseData, 30000)`. -/
def flowiseManagerMount (ts : TimerState) : Nat × TimerState := setIntervalT ts 30000

/-- `FlowiseManager`'s unmount cleanup: `clearInterval(interval)` on the id it
created. -/
def flowiseManagerCleanup (id : Nat) (ts : TimerState) : TimerState := clearIntervalT ts id

/-! ## start.sh -/

/-- One observable step of `start.sh` (ANSI color escape sequences emitted by
`print_status`/`print_success` are elided from the echoed lines). -/
inductive ShellEvent where
  | echoLine (s : String)
  | dockerComposeUpD
  | dockerComposePs
  | sleepSec (n : Nat)
deriving DecidableEq, Repr

/-- `start.sh` under `set -e`: given whether `docker-compose.yaml` exists in
the working directory and the exit codes of the two docker-compose commands,
returns the script's exit status and its event trace. -/
def startScript (composeFileExists : Bool) (upCode psCode : Nat) : Nat × List ShellEvent :=
  let banner := [ShellEvent.echoLine "🚀 Starting KI Self Sustain System..."]
  if !composeFileExists then
    (1, banner ++ [.echoLine "Error: docker-compose.yaml not found!"])
  else
    let t1 := banner ++ [.echoLine "[INFO] Starting all services...", .dockerComposeUpD]
    if upCode != 0 then (upCode, t1)
    else
      let t2 := t1 ++ [.echoLine "[INFO] Waiting for services to initialize...", .sleepSec 15,
                       .echoLine "[INFO] Service status:", .dockerComposePs]
      if psCode != 0 then (psCode, t2)
      else
        (0, t2 ++ [.echoLine "[SUCCESS] KI Self Sustain System started!",
                   .echoLine "",
                   .echoLine "Access the system at: http://localhost",
                   .echoLine "View logs with: docker-compose logs -f",
                   .echoLine "Stop with: docker-compose down"])

/-! ## Helper lemmas -/

theorem settled_mark_iff (r : Settled) :
    ((if settledOk r then "online" else "offline") = "online" ↔ r = .fulfilled true) ∧
    ((if settledOk r then "online" else "offline") = "offline" ↔ r ≠ .fulfilled true) := by
  rcases r with ok | _
  · cases ok <;> simp [settledOk]
  · simp [settledOk]

theorem jsIncludesL_iff (hay sub : List Char) : jsIncludesL hay sub = true ↔ sub <:+: hay := by
  induction hay with
  | nil => simp [jsIncludesL, List.isEmpty_iff]
  | cons c t ih =>
    simp [jsIncludesL, Bool.or_eq_true, List.isPrefixOf_iff_prefix, ih, List.infix_cons_iff]

theorem jsIncludes_of_middle (a e b : String) : jsIncludes (a ++ e ++ b) e = true := by
  rw [jsIncludes, jsIncludesL_iff]
  have : (a ++ e ++ b).toList = a.toList ++ e.toList ++ b.toList := by
    simp [String.toList, String.data_append]
  rw [this]
  exact List.infix_append _ _ _

/-! ## Claim theorems -/

/-- C1: in every completed `fetchSystemData` poll that does not reach the
outer catch, each of the three services is marked `'online'` iff its own fetch
settled fulfilled with an ok (2xx) response and `'offline'` otherwise, and
each service's marking depends only on its own settled outcome. -/
theorem c1_service_marking (st : SMState) (s l f : Settled) (sj ep : Option String)
    (p : PerfSample) :
    (((fetchSystemDataSuccess st s l f sj ep p).services.backend = some "online" ↔
        s = .fulfilled true) ∧
      ((fetchSystemDataSuccess st s l f sj ep p).services.backend = some "offline" ↔
        s ≠ .fulfilled true)) ∧
    (((fetchSystemDataSuccess st s l f sj ep p).services.learning = some "online" ↔
        l = .fulfilled true) ∧
      ((fetchSystemDataSuccess st s l f sj ep p).services.learning = some "offline" ↔
        l ≠ .fulfilled true)) ∧
    (((fetchSystemDataSuccess st s l f sj ep p).services.flowise = some "online" ↔
        f = .fulfilled true) ∧
      ((fetchSystemDataSuccess st s l f sj ep p).services.flowise = some "offline" ↔
        f ≠ .fulfilled true)) ∧
    (∀ (st' : SMState) (l' f' : Settled) (sj' ep' : Option String) (p' : PerfSample),
      (fetchSystemDataSuccess st s l f sj ep p).services.backend =
        (fetchSystemDataSuccess st' s l' f' sj' ep' p').services.backend) ∧
    (∀ (st' : SMState) (s' f' : Settled) (sj' ep' : Option String) (p' : PerfSample),
      (fetchSystemDataSuccess st s l f sj ep p).services.learning =
        (fetchSystemDataSuccess st' s' l f' sj' ep' p').services.learning) ∧
    (∀ (st' : SMState) (s' l' : Settled) (sj' ep' : Option String) (p' : PerfSample),
      (fetchSystemDataSuccess st s l f sj ep p).services.flowise =
        (fetchSystemDataSuccess st' s' l' f sj' ep' p').services.flowise) := by
  refine ⟨⟨?_, ?_⟩, ⟨?_, ?_⟩, ⟨?_, ?_⟩, fun _ _ _ _ _ _ => rfl, fun _ _ _ _ _ _ => rfl,
    fun _ _ _ _ _ _ => rfl⟩ <;>
    simp only [fetchSystemDataSuccess, fetchServices, Option.some.injEq] <;>
    first
      | exact (settled_mark_iff s).1
      | exact (settled_mark_iff s).2
      | exact (settled_mark_iff l).1
      | exact (settled_mark_iff l).2
      | exact (settled_mark_iff f).1
      | exact (settled_mark_iff f).2

/-- Witness for C1 at a concrete poll: backend fulfilled-ok, learning
rejected, flowise fulfilled but non-2xx. -/
theorem c1_service_marking_witness :
    (fetchSystemDataSuccess initialSMState (.fulfilled true) .rejected (.fulfilled false)
      none none ⟨"t", 1, 2, 3, 4⟩).services.backend = some "online" ∧
    (fetchSystemDataSuccess initialSMState (.fulfilled true) .rejected (.fulfilled false)
      none none ⟨"t", 1, 2, 3, 4⟩).services.learning = some "offline" ∧
    (fetchSystemDataSuccess initialSMState (.fulfilled true) .rejected (.fulfilled false)
      none none ⟨"t", 1, 2, 3, 4⟩).services.flowise = some "offline" :=
  ⟨((c1_service_marking initialSMState (.fulfilled true) .rejected (.fulfilled false)
      none none ⟨"t", 1, 2, 3, 4⟩).1.1).mpr rfl,
   ((c1_service_marking initialSMState (.fulfilled true) .rejected (.fulfilled false)
      none none ⟨"t", 1, 2, 3, 4⟩).2.1.2).mpr (by decide),
   ((c1_service_marking initialSMState (.fulfilled true) .rejected (.fulfilled false)
      none none ⟨"t", 1, 2, 3, 4⟩).2.2.1.2).mpr (by decide)⟩

/-- C5: after every completed success-path run of `fetchSystemData`, the
performance array is the previous array plus exactly one new sample with the
oldest entries dropped down to the 20-sample cap, in the original
(chronological) order, so its length is `min (old + 1) 20 ≤ 20`. -/
theorem c5_performance_window (st : SMState) (s l f : Settled) (sj ep : Option String)
    (p : PerfSample) :
    (fetchSystemDataSuccess st s l f sj ep p).performance =
      st.performance.drop (st.performance.length + 1 - 20) ++ [p] ∧
    (fetchSystemDataSuccess st s l f sj ep p).performance.length =
      min (st.performance.length + 1) 20 ∧
    (fetchSystemDataSuccess st s l f sj ep p).performance.length ≤ 20 := by
  have hdrop : st.performance.length + 1 - 20 ≤ st.performance.length := by omega
  have heq : (fetchSystemDataSuccess st s l f sj ep p).performance =
      st.performance.drop (st.performance.length + 1 - 20) ++ [p] := by
    show updatePerformance st.performance p = _
    simp only [updatePerformance, jsSliceLast, List.length_append, List.length_cons,
      List.length_nil]
    rw [List.drop_append_of_le_length hdrop]
  refine ⟨heq, ?_, ?_⟩ <;> rw [heq] <;>
    simp only [List.length_append, List.length_drop, List.length_cons, List.length_nil] <;>
    omega

/-- C7: `start.sh` exits with status 1 without invoking any docker-compose
command when `docker-compose.yaml` is absent; when it is present (and the
docker-compose commands succeed under `set -e`), it runs
`docker-compose up -d`, later `docker-compose ps`, and prints the fixed
access-point URL `http://localhost`. -/
theorem c7_start_script (upCode psCode : Nat) :
    ((startScript false upCode psCode).1 = 1 ∧
      ∀ ev ∈ (startScript false upCode psCode).2,
        ev ≠ .dockerComposeUpD ∧ ev ≠ .dockerComposePs) ∧
    (upCode = 0 → psCode = 0 →
      (startScript true upCode psCode).1 = 0 ∧
      (startScript true upCode psCode).2[2]? = some .dockerComposeUpD ∧
      (startScript true upCode psCode).2[6]? = some .dockerComposePs ∧
      ShellEvent.echoLine "Access the system at: http://localhost" ∈
        (startScript true upCode psCode).2) := by
  constructor
  · refine ⟨rfl, ?_⟩
    intro ev hev
    have h2 : ev ∈ [ShellEvent.echoLine "🚀 Starting KI Self Sustain System...",
        ShellEvent.echoLine "Error: docker-compose.yaml not found!"] := hev
    simp only [List.mem_cons, List.not_mem_nil, or_false] at h2
    rcases h2 with rfl | rfl <;> exact ⟨by decide, by decide⟩
  · rintro rfl rfl
    refine ⟨rfl, rfl, rfl, ?_⟩
    decide

/-- Witness for C7 at succeeding docker-compose commands. -/
theorem c7_start_script_witness :
    (startScript false 0 0).1 = 1 ∧ (startScript true 0 0).1 = 0 :=
  ⟨(c7_start_script 0 0).1.1, ((c7_start_script 0 0).2 rfl rfl).1⟩

theorem reachable_service_fields {st : SMState} (h : SMReachable st) :
    (st.services.backend = none ∨ st.services.backend = some "online" ∨
      st.services.backend = some "offline") ∧
    (st.services.learning = none ∨ st.services.learning = some "online" ∨
      st.services.learning = some "offline") ∧
    (st.services.flowise = none ∨ st.services.flowise = some "online" ∨
      st.services.flowise = some "offline") := by
  induction h with
  | init => exact ⟨Or.inl rfl, Or.inl rfl, Or.inl rfl⟩
  | success s l f sj ep p _ _ =>
    refine ⟨?_, ?_, ?_⟩ <;>
      simp only [fetchSystemDataSuccess, fetchServices] <;> split <;> simp
  | failure _ _ =>
    exact ⟨Or.inr (Or.inr rfl), Or.inr (Or.inr rfl), Or.inr (Or.inr rfl)⟩

/-- C2 fails as stated: the Service-Status card always renders a fourth
per-service badge, the hard-coded `'LLM Service'` row, whose displayed status
is the third value `'checking'` — already in the initial UI state. -/
theorem c2_badges_counterexample :
    (serviceBadges initialSMState.services)[3]? = some ⟨"LLM Service", "checking"⟩ ∧
    ("checking" ≠ "online" ∧ "checking" ≠ "offline") := by
  exact ⟨rfl, by decide, by decide⟩

/-- C2 (amended): in every reachable `SystemMonitor` state, each of the three
polled service badges (Backend API, Lern-Engine, Flowise) shows exactly
`'online'` or `'offline'`, but the fourth, hard-coded `'LLM Service'` badge
always shows the third value `'checking'` (so every badge shows one of these
three values). -/
theorem c2_badges_amended (st : SMState) (h : SMReachable st) :
    (∀ b ∈ (serviceBadges st.services).take 3, b.status = "online" ∨ b.status = "offline") ∧
    (serviceBadges st.services)[3]? = some ⟨"LLM Service", "checking"⟩ ∧
    (∀ b ∈ serviceBadges st.services,
      b.status = "online" ∨ b.status = "offline" ∨ b.status = "checking") := by
  obtain ⟨hb, hl, hf⟩ := reachable_service_fields h
  have hb' : jsOrD st.services.backend "offline" = "online" ∨
      jsOrD st.services.backend "offline" = "offline" := by
    rcases hb with h' | h' | h' <;> rw [h'] <;> simp [jsOrD]
  have hl' : jsOrD st.services.learning "offline" = "online" ∨
      jsOrD st.services.learning "offline" = "offline" := by
    rcases hl with h' | h' | h' <;> rw [h'] <;> simp [jsOrD]
  have hf' : jsOrD st.services.flowise "offline" = "online" ∨
      jsOrD st.services.flowise "offline" = "offline" := by
    rcases hf with h' | h' | h' <;> rw [h'] <;> simp [jsOrD]
  refine ⟨?_, rfl, ?_⟩
  · intro b hbmem
    simp only [serviceBadges, List.take, List.mem_cons, List.not_mem_nil, or_false] at hbmem
    rcases hbmem with rfl | rfl | rfl
    · exact hb'
    · exact hl'
    · exact hf'
  · intro b hbmem
    simp only [serviceBadges, List.mem_cons, List.not_mem_nil, or_false] at hbmem
    rcases hbmem with rfl | rfl | rfl | rfl
    · exact hb'.imp id Or.inl
    · exact hl'.imp id Or.inl
    · exact hf'.imp id Or.inl
    · exact Or.inr (Or.inr rfl)

/-- Witness for C2 (amended) at the initial state. -/
theorem c2_badges_amended_witness :
    (serviceBadges initialSMState.services)[3]? = some ⟨"LLM Service", "checking"⟩ :=
  (c2_badges_amended initialSMState SMReachable.init).2.1

/-- C6: `SystemMonitor` registers a 5000 ms interval and `FlowiseManager` a
30000 ms interval on mount, and each unmount cleanup clears exactly the
interval its own mount created, so no timer of the component survives its
unmount. -/
theorem c6_polling_intervals (ts : TimerState)
    (hfresh : ∀ e ∈ ts.active, e.1 < ts.nextId) :
    ((systemMonitorMount ts).2.active = ts.active ++ [((systemMonitorMount ts).1, 5000)] ∧
      (systemMonitorCleanup (systemMonitorMount ts).1 (systemMonitorMount ts).2).active =
        ts.active ∧
      ∀ e ∈ (systemMonitorCleanup (systemMonitorMount ts).1 (systemMonitorMount ts).2).active,
        e.1 ≠ (systemMonitorMount ts).1) ∧
    ((flowiseManagerMount ts).2.active = ts.active ++ [((flowiseManagerMount ts).1, 30000)] ∧
      (flowiseManagerCleanup (flowiseManagerMount ts).1 (flowiseManagerMount ts).2).active =
        ts.active ∧
      ∀ e ∈ (flowiseManagerCleanup (flowiseManagerMount ts).1 (flowiseManagerMount ts).2).active,
        e.1 ≠ (flowiseManagerMount ts).1) := by
  have hself : ∀ periodMs : Nat, ts.active.filter (fun e => e.1 != ts.nextId) = ts.active := by
    intro _
    rw [List.filter_eq_self]
    intro e he
    have := hfresh e he
    simp only [bne_iff_ne, ne_eq]
    omega
  have hclear : ∀ periodMs : Nat,
      (clearIntervalT (setIntervalT ts periodMs).2 (setIntervalT ts periodMs).1).active =
        ts.active := by
    intro periodMs
    simp only [clearIntervalT, setIntervalT, List.filter_append]
    rw [hself periodMs]
    simp
  refine ⟨⟨rfl, hclear 5000, ?_⟩, ⟨rfl, hclear 30000, ?_⟩⟩
  · intro e he
    rw [show (systemMonitorCleanup (systemMonitorMount ts).1 (systemMonitorMount ts).2).active =
        ts.active from hclear 5000] at he
    have := hfresh e he
    show e.1 ≠ ts.nextId
    omega
  · intro e he
    rw [show (flowiseManagerCleanup (flowiseManagerMount ts).1 (flowiseManagerMount ts).2).active =
        ts.active from hclear 30000] at he
    have := hfresh e he
    show e.1 ≠ ts.nextId
    omega

/-- Witness for C6 at an empty timer table. -/
theorem c6_polling_intervals_witness :
    (systemMonitorMount ⟨[], 0⟩).2.active = [] ++ [(0, 5000)] ∧
    (flowiseManagerCleanup (flowiseManagerMount ⟨[], 0⟩).1
      (flowiseManagerMount ⟨[], 0⟩).2).active = [] :=
  ⟨(c6_polling_intervals ⟨[], 0⟩ (by simp)).1.1,
   (c6_polling_intervals ⟨[], 0⟩ (by simp)).2.2.1⟩

/-- C4 fails as stated: a successful per-chatflow optimize surfaces its
outcome through a blocking `alert(...)` dialog (and the auto-optimize handler
does the same). -/
theorem c4_alert_counterexample :
    (handleOptimizeChatflow (.ok ⟨true, "details"⟩)).any isAlert = true ∧
    (handleAutoOptimize (.ok ⟨true, 3⟩)).any isAlert = true := by
  decide

/-- C4 (amended): a failed or thrown optimize request is never retried and is
surfaced only through a console log (no alert, no refetch); a successful
optimize or auto-optimize request, however, surfaces its outcome through a
blocking `alert` dialog before triggering one immediate data refresh. -/
theorem c4_effects_amended (r1 : Except String OptimizeResp)
    (r2 : Except String AutoOptimizeResp) :
    (∀ e, r1 = .error e →
      handleOptimizeChatflow r1 = [.consoleError ("Failed to optimize chatflow: " ++ e)]) ∧
    (∀ e, r2 = .error e →
      handleAutoOptimize r2 = [.consoleError ("Failed to auto-optimize: " ++ e)]) ∧
    (∀ o, r1 = .ok o → o.ok = false → handleOptimizeChatflow r1 = []) ∧
    (∀ o, r2 = .ok o → o.ok = false → handleAutoOptimize r2 = []) ∧
    (∀ o, r1 = .ok o → o.ok = true →
      handleOptimizeChatflow r1 =
        [.alertDialog ("Optimierung abgeschlossen: " ++ o.optimizationStr),
         .refetchFlowiseData]) ∧
    (∀ o, r2 = .ok o → o.ok = true →
      handleAutoOptimize r2 =
        [.alertDialog ("Auto-Optimierung abgeschlossen: " ++ toString o.resultsLength ++
          " Chatflows verarbeitet"), .refetchFlowiseData]) := by
  refine ⟨?_, ?_, ?_, ?_, ?_, ?_⟩ <;> rintro x rfl <;>
    first
      | (intro h2; simp [handleOptimizeChatflow, handleAutoOptimize, h2])
      | simp [handleOptimizeChatflow, handleAutoOptimize]

/-- Witness for C4 (amended) at concrete outcomes. -/
theorem c4_effects_amended_witness :
    handleOptimizeChatflow (.error "net down") =
      [.consoleError ("Failed to optimize chatflow: " ++ "net down")] ∧
    handleAutoOptimize (.ok ⟨true, 2⟩) =
      [.alertDialog ("Auto-Optimierung abgeschlossen: " ++ toString 2 ++
        " Chatflows verarbeitet"), .refetchFlowiseData] :=
  ⟨(c4_effects_amended (.error "net down") (.error "net down")).1 "net down" rfl,
   (c4_effects_amended (.error "net down") (.ok ⟨true, 2⟩)).2.2.2.2.2 ⟨true, 2⟩ rfl rfl⟩

theorem isBotError_user (now : Nat) (input : String) :
    isBotError (userMessageOf now input) = false := rfl

theorem isBotError_setup (now : Nat) (sd : SetupData) :
    isBotError (setupAttemptedMessage now sd) = false := rfl

theorem isBotError_conn (now : Nat) (e : String) :
    isBotError (connectionErrorMessage now e) = true := rfl

theorem connectionErrorMessage_contains (now : Nat) (e : String) :
    jsIncludes (connectionErrorMessage now e).content e = true :=
  jsIncludes_of_middle "Verbindungsfehler: " e ". Überprüfen Sie, ob das Backend läuft."

/-- C9: when the input is empty or whitespace-only, or a send is already in
flight, `handleSendMessage` leaves `messages`, `inputValue` and `isLoading`
unchanged and issues no network request. -/
theorem c9_guard_frame (env : ChatEnv) (st : ChatState)
    (h : jsTrim st.inputValue = "" ∨ st.isLoading = true) :
    handleSendMessage env st = (st, []) := by
  have hb : (jsTrim st.inputValue == "" || st.isLoading) = true := by
    rcases h with h | h <;> simp [h]
  simp [handleSendMessage, hb]

/-- Witness for C9 with a whitespace-only input. -/
theorem c9_guard_frame_witness :
    handleSendMessage ⟨0, .error "x", .error "x"⟩ ⟨initialChatMessages, "   ", false⟩ =
      (⟨initialChatMessages, "   ", false⟩, []) :=
  c9_guard_frame ⟨0, .error "x", .error "x"⟩ ⟨initialChatMessages, "   ", false⟩
    (Or.inl (by decide))

/-- C3: whenever the fetch sequence of a `handleSendMessage` run throws with
error message `e`, the run appends exactly one message of type `'bot'` and
status `'error'` among the appended messages, its content contains `e`, and
`isLoading` ends up `false`. -/
theorem c3_chat_error_bubble (env : ChatEnv) (st : ChatState) (e : String)
    (hguard : (jsTrim st.inputValue == "" || st.isLoading) = false)
    (hthrow : thrownMsg env = some e) :
    (handleSendMessage env st).1.isLoading = false ∧
    ∃ tail, (handleSendMessage env st).1.messages = st.messages ++ tail ∧
      (tail.filter isBotError).length = 1 ∧
      ∀ m ∈ tail, isBotError m = true → jsIncludes m.content e = true := by
  obtain ⟨now, setup, main⟩ := env
  rcases setup with es | sd
  · have he : es = e := by
      simpa [thrownMsg] using hthrow
    subst he
    refine ⟨by simp [handleSendMessage, hguard], ?_⟩
    refine ⟨[userMessageOf now st.inputValue, connectionErrorMessage now es], ?_, ?_, ?_⟩
    · simp [handleSendMessage, hguard, appendMessage]
    · simp [List.filter_cons, isBotError_user, isBotError_conn]
    · intro m hm hbot
      rcases hm with _ | ⟨_, hm⟩
      · rw [isBotError_user] at hbot
        exact absurd hbot (by decide)
      · rcases hm with _ | ⟨_, hm⟩
        · exact connectionErrorMessage_contains now es
        · exact absurd hm (List.not_mem_nil m)
  · rcases main with em | resp
    · have he : em = e := by
        simpa [thrownMsg] using hthrow
      subst he
      by_cases hsd : sd.status = some "setup_attempted"
      · refine ⟨by simp [handleSendMessage, hguard, hsd], ?_⟩
        refine ⟨[userMessageOf now st.inputValue, setupAttemptedMessage now sd,
          connectionErrorMessage now em], ?_, ?_, ?_⟩
        · simp [handleSendMessage, hguard, hsd, appendMessage]
        · simp [List.filter_cons, isBotError_user, isBotError_setup, isBotError_conn]
        · intro m hm hbot
          rcases hm with _ | ⟨_, hm⟩
          · rw [isBotError_user] at hbot
            exact absurd hbot (by decide)
          · rcases hm with _ | ⟨_, hm⟩
            · rw [isBotError_setup] at hbot
              exact absurd hbot (by decide)
            · rcases hm with _ | ⟨_, hm⟩
              · exact connectionErrorMessage_contains now em
              · exact absurd hm (List.not_mem_nil m)
      · refine ⟨by simp [handleSendMessage, hguard, hsd], ?_⟩
        refine ⟨[userMessageOf now st.inputValue, connectionErrorMessage now em], ?_, ?_, ?_⟩
        · simp [handleSendMessage, hguard, hsd, appendMessage]
        · simp [List.filter_cons, isBotError_user, isBotError_conn]
        · intro m hm hbot
          rcases hm with _ | ⟨_, hm⟩
          · rw [isBotError_user] at hbot
            exact absurd hbot (by decide)
          · rcases hm with _ | ⟨_, hm⟩
            · exact connectionErrorMessage_contains now em
            · exact absurd hm (List.not_mem_nil m)
    · exact absurd hthrow (by simp [thrownMsg])

/-- Witness for C3 at a run whose first fetch throws. -/
theorem c3_chat_error_bubble_witness :
    (handleSendMessage ⟨0, .error "boom", .error "boom"⟩
      ⟨initialChatMessages, "hello", false⟩).1.isLoading = false :=
  (c3_chat_error_bubble ⟨0, .error "boom", .error "boom"⟩
    ⟨initialChatMessages, "hello", false⟩ "boom" (by decide) rfl).1

/-- C10: the chat message list is append-only — the single `setMessages`
update shape used by `ChatInterface` appends exactly one message at the end,
and every full `handleSendMessage` run only ever extends the previous list
(no removal, reordering or mutation of earlier messages). -/
theorem c10_append_only :
    (∀ (prev : List ChatMessage) (m : ChatMessage),
      appendMessage prev m = prev ++ [m] ∧
      (appendMessage prev m).length = prev.length + 1) ∧
    (∀ (env : ChatEnv) (st : ChatState),
      ∃ tail, (handleSendMessage env st).1.messages = st.messages ++ tail) := by
  refine ⟨fun prev m => ⟨rfl, by simp [appendMessage]⟩, ?_⟩
  intro env st
  obtain ⟨now, setup, main⟩ := env
  by_cases hguard : (jsTrim st.inputValue == "" || st.isLoading) = true
  · exact ⟨[], by simp [handleSendMessage, hguard]⟩
  · have hg : (jsTrim st.inputValue == "" || st.isLoading) = false := by
      simpa using hguard
    rcases setup with es | sd
    · exact ⟨[userMessageOf now st.inputValue, connectionErrorMessage now es],
        by simp [handleSendMessage, hg, appendMessage]⟩
    · by_cases hsd : sd.status = some "setup_attempted"
      · rcases main with em | resp
        · exact ⟨[userMessageOf now st.inputValue, setupAttemptedMessage now sd,
            connectionErrorMessage now em],
            by simp [handleSendMessage, hg, hsd, appendMessage]⟩
        · exact ⟨[userMessageOf now st.inputValue, setupAttemptedMessage now sd,
            ⟨2 * now + 2, "bot", botContent (chooseEndpoint st.inputValue now).1 resp, now,
             if resp.ok then "success" else "error"⟩],
            by simp [handleSendMessage, hg, hsd, appendMessage]⟩
      · rcases main with em | resp
        · exact ⟨[userMessageOf now st.inputValue, connectionErrorMessage now em],
            by simp [handleSendMessage, hg, hsd, appendMessage]⟩
        · exact ⟨[userMessageOf now st.inputValue,
            ⟨2 * now + 2, "bot", botContent (chooseEndpoint st.inputValue now).1 resp, now,
             if resp.ok then "success" else "error"⟩],
            by simp [handleSendMessage, hg, hsd, appendMessage]⟩

/-- C8: the endpoint dispatch of `handleSendMessage`: case-insensitive
substring matching with fixed precedence — improve/optimize POSTs to the
autonomous-improvement endpoint, else status/health GETs the AI status
endpoint, else flowise/workflow GETs the chatflows endpoint, else the input
POSTs to the llm-feedback endpoint — and GET requests carry no body. -/
theorem c8_endpoint_dispatch (input : String) (ts : Nat) :
    ((jsIncludes (jsToLower input) "improve" = true ∨
        jsIncludes (jsToLower input) "optimize" = true) →
      (chooseEndpoint input ts).1 = "/api/learning/autonomous-improvement" ∧
      methodFor (chooseEndpoint input ts).1 = "POST" ∧
      bodyFor (chooseEndpoint input ts).1 (chooseEndpoint input ts).2 =
        some (.improvementTrigger input ts)) ∧
    (jsIncludes (jsToLower input) "improve" = false →
      jsIncludes (jsToLower input) "optimize" = false →
      (jsIncludes (jsToLower input) "status" = true ∨
        jsIncludes (jsToLower input) "health" = true) →
      (chooseEndpoint input ts).1 = "/api/ai/status" ∧
      methodFor (chooseEndpoint input ts).1 = "GET" ∧
      bodyFor (chooseEndpoint input ts).1 (chooseEndpoint input ts).2 = none) ∧
    (jsIncludes (jsToLower input) "improve" = false →
      jsIncludes (jsToLower input) "optimize" = false →
      jsIncludes (jsToLower input) "status" = false →
      jsIncludes (jsToLower input) "health" = false →
      (jsIncludes (jsToLower input) "flowise" = true ∨
        jsIncludes (jsToLower input) "workflow" = true) →
      (chooseEndpoint input ts).1 = "/api/flowise/chatflows" ∧
      methodFor (chooseEndpoint input ts).1 = "GET" ∧
      bodyFor (chooseEndpoint input ts).1 (chooseEndpoint input ts).2 = none) ∧
    (jsIncludes (jsToLower input) "improve" = false →
      jsIncludes (jsToLower input) "optimize" = false →
      jsIncludes (jsToLower input) "status" = false →
      jsIncludes (jsToLower input) "health" = false →
      jsIncludes (jsToLower input) "flowise" = false →
      jsIncludes (jsToLower input) "workflow" = false →
      (chooseEndpoint input ts).1 = "/api/learning/llm-feedback" ∧
      methodFor (chooseEndpoint input ts).1 = "POST" ∧
      bodyFor (chooseEndpoint input ts).1 (chooseEndpoint input ts).2 =
        some (.userInteraction input ts)) ∧
    (∀ (endpoint : String) (d : ReqBody), methodFor endpoint = "GET" →
      bodyFor endpoint d = none) := by
  refine ⟨?_, ?_, ?_, ?_, ?_⟩
  · intro h
    have hcond : (jsIncludes (jsToLower input) "improve" ||
        jsIncludes (jsToLower input) "optimize") = true := by
      rcases h with h | h <;> simp [h]
    have hchoose : chooseEndpoint input ts =
        ("/api/learning/autonomous-improvement", .improvementTrigger input ts) := by
      simp [chooseEndpoint, hcond]
    have hget : (jsIncludes "/api/learning/autonomous-improvement" "status" ||
        jsIncludes "/api/learning/autonomous-improvement" "chatflows") = false := by decide
    rw [hchoose]
    exact ⟨rfl, by simp [methodFor, hget], by simp [bodyFor, hget]⟩
  · intro h1 h2 h
    have hcond : (jsIncludes (jsToLower input) "status" ||
        jsIncludes (jsToLower input) "health") = true := by
      rcases h with h | h <;> simp [h]
    have hchoose : chooseEndpoint input ts = ("/api/ai/status", .emptyObj) := by
      simp [chooseEndpoint, h1, h2, hcond]
    rw [hchoose]
    exact ⟨rfl, by decide, by decide⟩
  · intro h1 h2 h3 h4 h
    have hcond : (jsIncludes (jsToLower input) "flowise" ||
        jsIncludes (jsToLower input) "workflow") = true := by
      rcases h with h | h <;> simp [h]
    have hchoose : chooseEndpoint input ts = ("/api/flowise/chatflows", .emptyObj) := by
      simp [chooseEndpoint, h1, h2, h3, h4, hcond]
    rw [hchoose]
    exact ⟨rfl, by decide, by decide⟩
  · intro h1 h2 h3 h4 h5 h6
    have hchoose : chooseEndpoint input ts =
        ("/api/learning/llm-feedback", .userInteraction input ts) := by
      simp [chooseEndpoint, h1, h2, h3, h4, h5, h6]
    have hget : (jsIncludes "/api/learning/llm-feedback" "status" ||
        jsIncludes "/api/learning/llm-feedback" "chatflows") = false := by decide
    rw [hchoose]
    exact ⟨rfl, by simp [methodFor, hget], by simp [bodyFor, hget]⟩
  · intro endpoint d hm
    by_cases hc : (jsIncludes endpoint "status" || jsIncludes endpoint "chatflows") = true
    · simp [bodyFor, hc]
    · have hcf : (jsIncludes endpoint "status" || jsIncludes endpoint "chatflows") = false := by
        simpa using hc
      have hPOST : methodFor endpoint = "POST" := by
        simp [methodFor, hcf]
      rw [hPOST] at hm
      exact absurd hm (by decide)

/-- Witness for C8 at concrete inputs for all four dispatch branches. -/
theorem c8_endpoint_dispatch_witness :
    (chooseEndpoint "Bitte OPTIMIZE das" 7).1 = "/api/learning/autonomous-improvement" ∧
    (chooseEndpoint "zeige status" 7).1 = "/api/ai/status" ∧
    (chooseEndpoint "check workflow" 7).1 = "/api/flowise/chatflows" ∧
    ((chooseEndpoint "hallo" 7).1 = "/api/learning/llm-feedback" ∧
      bodyFor (chooseEndpoint "zeige status" 7).1 (chooseEndpoint "zeige status" 7).2 = none) :=
  ⟨((c8_endpoint_dispatch "Bitte OPTIMIZE das" 7).1 (Or.inr (by decide))).1,
   ((c8_endpoint_dispatch "zeige status" 7).2.1 (by decide) (by decide) (Or.inl (by decide))).1,
   ((c8_endpoint_dispatch "check workflow" 7).2.2.1 (by decide) (by decide) (by decide)
      (by decide) (Or.inr (by decide))).1,
   ((c8_endpoint_dispatch "hallo" 7).2.2.2.1 (by decide) (by decide) (by decide) (by decide)
      (by decide) (by decide)).1,
   ((c8_endpoint_dispatch "zeige status" 7).2.1 (by decide) (by decide)
      (Or.inl (by decide))).2.2⟩

end KISelfSustain
